import Mathlib

/-!
Shallow embedding of the Content_Repurposer pipeline
(src/generate_content.py, src/app.py, src/audio_download.py,
src/transcribe.py) and verification of its specification claims.

External effects (environment variables, the chat-completion HTTP API,
the filesystem, the download library, FFmpeg and the speech model) are
modelled as explicit environment records; each embedded function also
returns a trace of the observable effects (number of API calls issued,
whether the credential was read, whether cleanup ran, ...).
-/

namespace ContentRepurposer

/-! ### Python-style string and dict helpers -/

/-- Python `str.lower()` restricted to the ASCII names this program uses. -/
def pyLower (s : String) : String :=
  String.mk (s.toList.map Char.toLower)

/-- Python `str.strip()`: drop leading and trailing whitespace. -/
def pyStrip (s : String) : String :=
  String.mk
    ((((s.toList.dropWhile Char.isWhitespace).reverse.dropWhile
        Char.isWhitespace).reverse))

/-- Truthiness of an optional string, as Python sees it: `None` and the
empty string are falsy. -/
def pyTruthy : Option String → Bool
  | none => false
  | some s => !(s == "")

/-- Python `a or b` on optional strings: `a` when truthy, otherwise `b`. -/
def pyOr (a b : Option String) : Option String :=
  if pyTruthy a then a else b

/-- First-match lookup in an association list (Python `dict` lookup). -/
def dictLookup {α : Type} : List (String × α) → String → Option α
  | [], _ => none
  | (k, v) :: rest, key => if k == key then some v else dictLookup rest key

/-- Python `dict.get(key, default)`. -/
def dictGetD {α : Type} (d : List (String × α)) (key : String) (dflt : α) : α :=
  match dictLookup d key with
  | some v => v
  | none => dflt

/-- Python `d[key] = value`: replace the value in place when the key is
present, append the pair otherwise. -/
def dictSet {α : Type} : List (String × α) → String → α → List (String × α)
  | [], key, v => [(key, v)]
  | (k, w) :: rest, key, v =>
    if k == key then (key, v) :: rest else (k, w) :: dictSet rest key v

/-- Replace the remainder of the character list when it starts with the
marker; `none` when it does not. -/
def stripMarker : List Char → List Char → Option (List Char)
  | [], cs => some cs
  | _ :: _, [] => none
  | m :: ms, c :: cs => if c == m then stripMarker ms cs else none

/-- Fuelled substitution of every occurrence of `marker` by `repl`
(the fuel is the input length, enough because each step consumes at
least one character). -/
def substFuel (marker repl : List Char) : Nat → List Char → List Char
  | 0, cs => cs
  | _ + 1, [] => []
  | n + 1, c :: rest =>
    match stripMarker marker (c :: rest) with
    | some rem => repl ++ substFuel marker repl n rem
    | none => c :: substFuel marker repl n rest

/-- Python `template.format(transcription=transcription)` for the
templates of this program, whose only placeholder is `{transcription}`. -/
def pyFormatTranscription (template transcription : String) : String :=
  String.mk
    (substFuel ("{transcription}".toList) transcription.toList
      template.toList.length template.toList)

/-! ### Embedding of src/generate_content.py -/

/-- `LANGUAGE_SYSTEM_PROMPTS` from src/generate_content.py. -/
def LANGUAGE_SYSTEM_PROMPTS : List (String × String) :=
  [("english", "You are a social media content creator writing in English."),
   ("spanish", "Eres un creador de contenido para redes sociales escribiendo en español."),
   ("french", "Vous êtes un créateur de contenu pour les réseaux sociaux écrivant en français."),
   ("german", "Sie sind ein Social-Media-Content-Creator, der auf Deutsch schreibt."),
   ("portuguese", "Você é um criador de conteúdo para mídias sociais escrevendo em português."),
   ("italian", "Sei un creatore di contenuti per social media che scrive in italiano.")]

/-- `PLATFORM_PROMPTS` from src/generate_content.py. -/
def PLATFORM_PROMPTS : List (String × String) :=
  [("instagram", "Convert the following transcription into an engaging Instagram caption. \n    Use relevant hashtags, keep it concise (max 2200 characters), and make it visually appealing. \n    Focus on creating a caption that will drive engagement and interest.\n\n    Transcription: {transcription}"),
   ("x", "Convert the following transcription into a sharp, concise tweet for X (Twitter). \n    Aim for maximum impact in 280 characters. Use a punchy, direct style that captures \n    the essence of the content.\n\n    Transcription: {transcription}"),
   ("linkedin", "Transform the transcription into a professional LinkedIn post. \n    Provide insights, add value, and maintain a professional tone. \n    Include key takeaways or professional learnings.\n\n    Transcription: {transcription}"),
   ("facebook", "Create a compelling Facebook post from the transcription. \n    Make it conversational, engaging, and shareable. \n    Add context and encourage interaction or discussion.\n\n    Transcription: {transcription}")]

/-- Outcome of one `requests.post` call to the chat-completion endpoint:
an HTTP response with a status code and the extracted message text, or a
raised exception with its message. -/
inductive ApiOutcome : Type
  | response (status : Nat) (text : String)
  | exc (msg : String)
deriving Repr, DecidableEq

/-- The payload of one chat-completion request: the fixed model
identifier, the language-specific system message and the
platform-specific user prompt. -/
structure ChatPayload : Type where
  model : String
  system : String
  user : String
deriving Repr, DecidableEq

/-- The string appended to a platform list for one call outcome
(src/generate_content.py lines 141-154): the trimmed message text on a
200 response, a failure placeholder on any other status, an exception
placeholder when the call raised. -/
def postResult : ApiOutcome → String
  | ApiOutcome.response status text =>
    if status == 200 then pyStrip text
    else "Content generation failed: " ++ toString status
  | ApiOutcome.exc msg => "Exception generating content: " ++ msg

/-- Environment of `generate_platform_content`: the two credential
environment variables and the HTTP API, indexed by the sequential number
of the call and the payload sent. -/
structure GenEnv : Type where
  openrouter_key : Option String
  openai_key : Option String
  api : Nat → ChatPayload → ApiOutcome

/-- The `ValueError`s `generate_platform_content` can raise. -/
inductive GenError : Type
  | invalidPlatforms (platforms : List String)
  | unsupportedLanguage (language : String)
deriving Repr, DecidableEq

/-- Result of a run of `generate_platform_content` together with its
observable effect trace. -/
structure GenOutcome : Type where
  result : Except GenError (List (String × List String))
  apiCalls : Nat
  credentialRead : Bool

/-- The sub-list of `platforms` not among the supported platform keys
(Python `set(platforms) - set(PLATFORM_PROMPTS.keys())`, nonempty
exactly when the set difference is). -/
def invalidPlatformsOf (platforms : List String) : List String :=
  platforms.filter (fun p => !(PLATFORM_PROMPTS.any (fun kv => kv.fst == p)))

/-- Python `language.lower() in LANGUAGE_SYSTEM_PROMPTS`
(src/generate_content.py line 83). -/
def langSupported (language : String) : Bool :=
  LANGUAGE_SYSTEM_PROMPTS.any (fun kv => kv.fst == pyLower language)

/-- Python `LANGUAGE_SYSTEM_PROMPTS[language.lower()]`
(src/generate_content.py line 132), total because it is only evaluated
after validation. -/
def sysPromptFor (language : String) : String :=
  dictGetD LANGUAGE_SYSTEM_PROMPTS (pyLower language) ""

/-- The payload built for one post of `platform`
(src/generate_content.py lines 126-135). -/
def payloadFor (sys transcription platform : String) : ChatPayload :=
  { model := "mistralai/mistral-7b-instruct",
    system := sys,
    user := pyFormatTranscription (dictGetD PLATFORM_PROMPTS platform "") transcription }

/-- The inner per-post loop (src/generate_content.py lines 123-154):
`n` sequential calls starting at global call index `idx`, collecting one
`postResult` per call, in call order. -/
def genPosts (api : Nat → ChatPayload → ApiOutcome) (payload : ChatPayload) :
    Nat → Nat → List String
  | 0, _ => []
  | n + 1, idx => postResult (api idx payload) :: genPosts api payload n (idx + 1)

/-- The outer per-platform loop (src/generate_content.py lines 117-156):
walk the platform list, issue `post_counts.get(platform, 1)` calls per
platform and store the collected posts under the platform key; returns
the content dict and the total number of calls issued. -/
def genLoop (api : Nat → ChatPayload → ApiOutcome) (sys transcription : String)
    (post_counts : List (String × Nat)) :
    List String → Nat → List (String × List String) →
      List (String × List String) × Nat
  | [], idx, content => (content, idx)
  | p :: rest, idx, content =>
    let n := dictGetD post_counts p 1
    genLoop api sys transcription post_counts rest (idx + n)
      (dictSet content p (genPosts api (payloadFor sys transcription p) n idx))

/-- `generate_platform_content` from src/generate_content.py.
Defaults, validation, credential retrieval with the two fallback
checks, then the per-platform / per-post generation loop. -/
def generate_platform_content (env : GenEnv) (transcription : String)
    (platformsArg : Option (List String)) (language : String)
    (postCountsArg : Option (List (String × Nat))) : GenOutcome :=
  let platforms := platformsArg.getD (PLATFORM_PROMPTS.map Prod.fst)
  let post_counts := postCountsArg.getD (platforms.map (fun p => (p, 1)))
  if !(invalidPlatformsOf platforms).isEmpty then
    { result := Except.error (GenError.invalidPlatforms (invalidPlatformsOf platforms)),
      apiCalls := 0, credentialRead := false }
  else if !(langSupported language) then
    { result := Except.error (GenError.unsupportedLanguage language),
      apiCalls := 0, credentialRead := false }
  else
    match pyOr env.openrouter_key env.openai_key with
    | none =>
      { result := Except.ok (platforms.foldl
          (fun d p => dictSet d p ["Content generation unavailable"]) []),
        apiCalls := 0, credentialRead := true }
    | some key =>
      if key == "" then
        { result := Except.ok (platforms.foldl
            (fun d p => dictSet d p ["Content generation unavailable"]) []),
          apiCalls := 0, credentialRead := true }
      else if (pyStrip key).length < 10 then
        { result := Except.ok (platforms.foldl
            (fun d p => dictSet d p ["Content generation unavailable - Invalid API key"]) []),
          apiCalls := 0, credentialRead := true }
      else
        let out := genLoop env.api (sysPromptFor language) transcription
          post_counts platforms 0 []
        { result := Except.ok out.fst, apiCalls := out.snd, credentialRead := true }

/-- Decidable equality for `Except`, used to evaluate concrete traces. -/
instance exceptDecEq {ε α : Type} [DecidableEq ε] [DecidableEq α] :
    DecidableEq (Except ε α) := fun x y =>
  match x, y with
  | Except.ok a, Except.ok b =>
    if h : a = b then Decidable.isTrue (by rw [h])
    else Decidable.isFalse (by intro hh; cases hh; exact h rfl)
  | Except.error a, Except.error b =>
    if h : a = b then Decidable.isTrue (by rw [h])
    else Decidable.isFalse (by intro hh; cases hh; exact h rfl)
  | Except.ok _, Except.error _ => Decidable.isFalse (by intro hh; cases hh)
  | Except.error _, Except.ok _ => Decidable.isFalse (by intro hh; cases hh)

/-! ### Embedding of src/audio_download.py -/

/-- Python `url.startswith(pre)`. -/
def pyStartsWith (url pre : String) : Bool :=
  (stripMarker pre.toList url.toList).isSome

/-- `validate_youtube_url` from src/audio_download.py lines 11-21. -/
def validate_youtube_url (url : String) : Bool :=
  pyStartsWith url "https://www.youtube.com/" || pyStartsWith url "https://youtu.be/"

/-- Environment of `download_youtube_audio`: whether `yt_dlp` extracts
video information (a truthy `info_dict`), and the `.mp3` file found in
the output directory with positive size after the download, if any. -/
structure DlEnv : Type where
  extractOk : Bool
  mp3Found : Option String

/-- Result of a run of `download_youtube_audio` together with whether
the download library was invoked at all. -/
structure DownloadTrace : Type where
  result : Except String String
  libraryInvoked : Bool
deriving Repr, DecidableEq

/-- `download_youtube_audio` from src/audio_download.py lines 23-94:
reject the URL before touching the download library, then extract info,
download, and locate the resulting `.mp3`. -/
def download_youtube_audio (env : DlEnv) (url : String) : DownloadTrace :=
  if !(validate_youtube_url url) then
    { result := Except.error
        "Invalid YouTube URL. Please provide a valid YouTube video link.",
      libraryInvoked := false }
  else if !env.extractOk then
    { result := Except.error "Unable to extract video information",
      libraryInvoked := true }
  else
    match env.mp3Found with
    | some path => { result := Except.ok path, libraryInvoked := true }
    | none =>
      { result := Except.error "No audio file was downloaded", libraryInvoked := true }

/-- Characters of the path after its last slash
(`os.path.basename`, accumulator reset at every separator). -/
def basenameAux : List Char → List Char → List Char
  | acc, [] => acc
  | acc, c :: rest =>
    if c == '/' then basenameAux [] rest else basenameAux (acc ++ [c]) rest

/-- The extension candidate accumulated so far: restarted at every dot,
extended by every later character (suffix from the last dot, inclusive). -/
def lastExtAux : List Char → List Char → List Char
  | acc, [] => acc
  | acc, c :: rest =>
    if c == '.' then lastExtAux ['.'] rest
    else
      match acc with
      | [] => lastExtAux [] rest
      | _ :: _ => lastExtAux (acc ++ [c]) rest

/-- `os.path.splitext(path)[1]`: the extension of the basename from its
last dot, where dots leading the basename start no extension. -/
def extOf (path : String) : String :=
  String.mk (lastExtAux [] ((basenameAux [] path.toList).dropWhile (fun c => c == '.')))

/-- `os.path.join` for the directory/file joins this program performs. -/
def pathJoin (dir name : String) : String :=
  if dir.toList.getLast? == some '/' then dir ++ name else dir ++ "/" ++ name

/-- `os.path.splitext(os.path.basename(input_file))[0]`: the basename
with its extension removed. -/
def stemOf (path : String) : String :=
  let b := basenameAux [] path.toList
  String.mk (b.take (b.length -
    (lastExtAux [] (b.dropWhile (fun c => c == '.'))).length))

/-- `convert_to_mp3` from src/audio_download.py lines 113-156: on an
FFmpeg error (modelled as `some stderr`) the error is reported and
re-raised; otherwise the file is transcoded into
`output_dir/<stem>.mp3` and that path returned. -/
def convert_to_mp3 (ffmpegError : Option String) (input_file output_dir : String) :
    Except String String :=
  match ffmpegError with
  | some e => Except.error ("FFmpeg conversion error: " ++ e)
  | none => Except.ok (pathJoin output_dir (stemOf input_file ++ ".mp3"))

/-- The audio extensions treated as already-audio by the local-file
branch of src/audio_download.py `main` (line 174). -/
def SUPPORTED_AUDIO_EXTS : List String := [".mp3", ".wav", ".ogg", ".flac"]

/-- What the local-file branch of the src/audio_download.py CLI decides
to do with a path. -/
inductive LocalAction : Type
  | passthrough (path : String)
  | convert (path : String)
deriving Repr, DecidableEq

/-- The local-file dispatch of src/audio_download.py `main`
(lines 168-179): pass an audio file through unchanged, convert anything
else to MP3. -/
def cli_local_file_action (path : String) : LocalAction :=
  if SUPPORTED_AUDIO_EXTS.contains (pyLower (extOf path)) then
    LocalAction.passthrough path
  else
    LocalAction.convert path

/-! ### Embedding of src/transcribe.py -/

/-- Environment of `transcribe_audio`: which paths exist on disk, and
the combined outcome of loading the Whisper model and running inference
(`Except.error` is the message of the underlying exception). -/
structure TransEnv : Type where
  fileExists : String → Bool
  whisper : Except String String

/-- The errors `transcribe_audio` can raise (`FileNotFoundError` and the
wrapping `RuntimeError`). -/
inductive TransError : Type
  | fileNotFound (msg : String)
  | runtimeError (msg : String)
deriving Repr, DecidableEq

/-- Result of a run of `transcribe_audio` together with whether the
model-loading / inference block was ever entered. -/
structure TransTrace : Type where
  result : Except TransError String
  modelLoaded : Bool

/-- `transcribe_audio` from src/transcribe.py lines 5-33: missing path
raises `FileNotFoundError` before the model is touched; any failure of
loading or inference is wrapped into a `RuntimeError`. -/
def transcribe_audio (env : TransEnv) (audio_path : String) : TransTrace :=
  if !(env.fileExists audio_path) then
    { result := Except.error
        (TransError.fileNotFound ("Audio file not found: " ++ audio_path)),
      modelLoaded := false }
  else
    match env.whisper with
    | Except.ok r => { result := Except.ok r, modelLoaded := true }
    | Except.error e =>
      { result := Except.error
          (TransError.runtimeError ("Failed to transcribe audio: " ++ e)),
        modelLoaded := true }

/-! ### Embedding of src/app.py -/

/-- The app's download directory (`DOWNLOAD_DIR` default). -/
def DOWNLOAD_DIR : String := "downloads/"

/-- `save_uploaded_file` from src/app.py lines 47-60: write the uploaded
bytes under the upload's name in the download directory and return that
path; return `None` when writing raised. -/
def save_uploaded_file (saveFails : Bool) (name : String) : Option String :=
  if saveFails then none else some (pathJoin DOWNLOAD_DIR name)

/-- Result of the app's local-file acquisition, with whether the
conversion tool was invoked on the way. -/
structure AcquireTrace : Type where
  result : Option String
  convertCalled : Bool
deriving Repr, DecidableEq

/-- The whole local-file acquisition step of src/app.py (line 184): it
is exactly `save_uploaded_file`; no format check and no conversion
happens on this path. -/
def app_acquire_local (saveFails : Bool) (name : String) : AcquireTrace :=
  { result := save_uploaded_file saveFails name, convertCalled := false }

/-- Effect trace of one `cleanup_audio_file` call
(src/app.py lines 62-74): whether the file was removed and whether the
warning branch ran. -/
structure CleanupTrace : Type where
  removed : Bool
  warned : Bool
deriving Repr, DecidableEq

/-- `cleanup_audio_file` from src/app.py lines 62-74: nothing happens
when the file does not exist; a failing `os.remove` is caught and only
warned about. -/
def cleanup_audio_file (fileExists removeFails : Bool) : CleanupTrace :=
  if fileExists then
    if removeFails then { removed := false, warned := true }
    else { removed := true, warned := false }
  else { removed := false, warned := false }

/-- Environment of one run of the src/app.py processing block: the
acquisition step (raised, returned `None`, or returned a path), the
transcription and generation outcomes, and the state the cleanup finds
(does the audio file still exist, does removing it fail). -/
structure RunEnv : Type where
  acquire : Except String (Option String)
  transcribeStep : Except String String
  generateStep : Except String Unit
  fileExists : Bool
  removeFails : Bool

/-- Terminal UI outcome of one run. -/
inductive RunOutcome : Type
  | success
  | errorShown (msg : String)
deriving Repr, DecidableEq

/-- Observable trace of one run: the outcome, how many times
`cleanup_audio_file` was invoked, and its effect when it was. -/
structure RunTrace : Type where
  outcome : RunOutcome
  cleanupCalls : Nat
  cleanup : Option CleanupTrace
deriving Repr, DecidableEq

/-- The `try/except/finally` processing block of src/app.py `main`
(lines 170-230). `audio_path` starts as `None`; the `finally` block
calls `cleanup_audio_file` exactly when `audio_path` is truthy. When
acquisition returned `None`, `transcribe_audio(None)` raises a
`TypeError` inside the `try`, shown as an error, and the `finally`
block skips cleanup because `audio_path` is falsy. -/
def runPipeline (env : RunEnv) : RunTrace :=
  match env.acquire with
  | Except.error e =>
    { outcome := RunOutcome.errorShown e, cleanupCalls := 0, cleanup := none }
  | Except.ok none =>
    { outcome := RunOutcome.errorShown "TypeError: audio path is None",
      cleanupCalls := 0, cleanup := none }
  | Except.ok (some _path) =>
    let c := cleanup_audio_file env.fileExists env.removeFails
    match env.transcribeStep with
    | Except.error e =>
      { outcome := RunOutcome.errorShown e, cleanupCalls := 1, cleanup := some c }
    | Except.ok _t =>
      match env.generateStep with
      | Except.error e =>
        { outcome := RunOutcome.errorShown e, cleanupCalls := 1, cleanup := some c }
      | Except.ok _ =>
        { outcome := RunOutcome.success, cleanupCalls := 1, cleanup := some c }

/-! ### Specification-side definitions

These express the spec's reading of the generation loop ("one entry per
requested post, in call order, platform by platform") independently of
the loop's accumulator, for comparison with the embedded code. -/

/-- Total number of chat-completion calls the spec expects for a
platform list: the per-platform count, default 1, summed in order. -/
def sumCounts (counts : List (String × Nat)) : List String → Nat
  | [] => 0
  | p :: rest => dictGetD counts p 1 + sumCounts counts rest

/-- Global index of the first call issued for platform `p` when the
platforms are processed in list order, each consuming its post count. -/
def startIndex (counts : List (String × Nat)) : List String → String → Nat
  | [], _ => 0
  | q :: rest, p =>
    if q == p then 0 else dictGetD counts q 1 + startIndex counts rest p

/-- The content mapping the spec expects from call index `idx` on: each
platform in order, bound to one `postResult` per requested post, the
j-th entry answering the j-th sequential call for that platform
(`List.range' idx n` is the index block `[idx, ..., idx + n - 1]`). -/
def expectedContent (api : Nat → ChatPayload → ApiOutcome)
    (sys transcription : String) (counts : List (String × Nat)) :
    List String → Nat → List (String × List String)
  | [], _ => []
  | p :: rest, idx =>
    (p, (List.range' idx (dictGetD counts p 1)).map
        (fun i => postResult (api i (payloadFor sys transcription p)))) ::
      expectedContent api sys transcription counts rest (idx + dictGetD counts p 1)

/-- Whether one call outcome is a failure (non-200 response or raised
exception). -/
def isFailureOutcome : ApiOutcome → Bool
  | ApiOutcome.response status _ => !(status == 200)
  | ApiOutcome.exc _ => true

/-- The placeholder string the code records for a failing call outcome
(`none` on a 200 response). -/
def failurePlaceholder : ApiOutcome → Option String
  | ApiOutcome.response status _ =>
    if status == 200 then none
    else some ("Content generation failed: " ++ toString status)
  | ApiOutcome.exc m => some ("Exception generating content: " ++ m)

/-- The entry for post `k` of platform `q` in a content mapping. -/
def entryAt (content : List (String × List String)) (q : String) (k : Nat) :
    Option String :=
  match dictLookup content q with
  | some l => l[k]?
  | none => none

/-! ### Concrete environments used by the witnesses -/

/-- A `GenEnv` with no credential configured anywhere. -/
def noCredEnv : GenEnv :=
  { openrouter_key := none, openai_key := none,
    api := fun _ _ => ApiOutcome.exc "unreachable" }

/-- An API behaviour answering every call with a 200 response naming the
call index. -/
def okApi : Nat → ChatPayload → ApiOutcome :=
  fun i _ => ApiOutcome.response 200 (" post " ++ toString i ++ " ")

/-- A `GenEnv` with a valid credential and an all-200 API. -/
def okEnv : GenEnv :=
  { openrouter_key := some "0123456789abc", openai_key := none, api := okApi }

/-- An API behaviour failing exactly at call index 1 with a 500. -/
def failAt1Api : Nat → ChatPayload → ApiOutcome
  | 1, _ => ApiOutcome.response 500 "server error"
  | _, _ => ApiOutcome.response 200 "ok"

/-- A `GenEnv` with a valid credential whose call index 1 fails. -/
def failAt1Env : GenEnv :=
  { openrouter_key := some "0123456789abc", openai_key := none, api := failAt1Api }

/-- The same environment with call index 1 answered differently. -/
def okAt1Env : GenEnv :=
  { openrouter_key := some "0123456789abc", openai_key := none,
    api := fun i p => match i with
      | 1 => ApiOutcome.response 200 "changed"
      | _ => failAt1Api i p }

/-- A `GenEnv` whose primary credential is blank and whose fallback
credential is too short once stripped. -/
def shortKeyEnv : GenEnv :=
  { openrouter_key := some "", openai_key := some " short ",
    api := fun _ _ => ApiOutcome.exc "unreachable" }

/-- A run of the app pipeline in which every stage succeeds. -/
def runEnvSuccess : RunEnv :=
  { acquire := Except.ok (some "downloads/clip.mp3"),
    transcribeStep := Except.ok "transcript",
    generateStep := Except.ok (),
    fileExists := true, removeFails := false }

/-- A run of the app pipeline failing at the transcription stage, with a
cleanup whose `os.remove` raises. -/
def runEnvTransFail : RunEnv :=
  { acquire := Except.ok (some "downloads/clip.mp3"),
    transcribeStep := Except.error "Failed to transcribe audio: corrupt",
    generateStep := Except.ok (),
    fileExists := true, removeFails := true }

/-- A download environment in which the library works. -/
def dlEnvOk : DlEnv := { extractOk := true, mp3Found := some "downloads/clip.mp3" }

/-- A transcription environment in which no path exists on disk. -/
def transEnvMissing : TransEnv :=
  { fileExists := fun _ => false, whisper := Except.ok "transcript" }

/-- A transcription environment in which the path exists but inference
raises. -/
def transEnvCorrupt : TransEnv :=
  { fileExists := fun _ => true, whisper := Except.error "corrupt audio" }

/-! ### Helper lemmas about the dict operations -/

theorem dictLookup_dictSet_self {α : Type} (d : List (String × α)) (k : String)
    (v : α) : dictLookup (dictSet d k v) k = some v := by
  induction d with
  | nil => simp [dictSet, dictLookup]
  | cons hd tl ih =>
    obtain ⟨k2, w⟩ := hd
    by_cases h : (k2 == k) = true
    · simp [dictSet, h, dictLookup]
    · simp only [Bool.not_eq_true] at h
      simp [dictSet, h, dictLookup, ih]

theorem dictLookup_dictSet_ne {α : Type} (d : List (String × α)) (k q : String)
    (v : α) (h : (k == q) = false) :
    dictLookup (dictSet d k v) q = dictLookup d q := by
  induction d with
  | nil => simp [dictSet, dictLookup, h]
  | cons hd tl ih =>
    obtain ⟨k2, w⟩ := hd
    by_cases h2 : (k2 == k) = true
    · have : k2 = k := by simpa using h2
      subst this
      simp [dictSet, h2, dictLookup, h]
    · simp only [Bool.not_eq_true] at h2
      by_cases h3 : (k2 == q) = true
      · simp [dictSet, h2, dictLookup, h3]
      · simp only [Bool.not_eq_true] at h3
        simp [dictSet, h2, dictLookup, h3, ih]

theorem dictSet_eq_append {α : Type} (d : List (String × α)) (k : String) (v : α)
    (h : dictLookup d k = none) : dictSet d k v = d ++ [(k, v)] := by
  induction d with
  | nil => simp [dictSet]
  | cons hd tl ih =>
    obtain ⟨k2, w⟩ := hd
    by_cases h2 : (k2 == k) = true
    · simp [dictLookup, h2] at h
    · simp only [Bool.not_eq_true] at h2
      simp only [dictLookup, h2, Bool.false_eq_true, if_false] at h
      simp [dictSet, h2, ih h]

theorem dictLookup_append_of_none {α : Type} (d1 d2 : List (String × α))
    (q : String) (h : dictLookup d1 q = none) :
    dictLookup (d1 ++ d2) q = dictLookup d2 q := by
  induction d1 with
  | nil => simp
  | cons hd tl ih =>
    obtain ⟨k2, w⟩ := hd
    by_cases h2 : (k2 == q) = true
    · simp [dictLookup, h2] at h
    · simp only [Bool.not_eq_true] at h2
      simp only [dictLookup, h2, Bool.false_eq_true, if_false] at h
      simp [dictLookup, h2, ih h]

theorem dictLookup_single_ne {α : Type} (k q : String) (v : α)
    (h : (k == q) = false) : dictLookup [(k, v)] q = none := by
  simp [dictLookup, h]

theorem dictLookup_foldl_const (v : List String) :
    ∀ (ps : List String) (d : List (String × List String)) (p : String),
      (p ∈ ps ∨ dictLookup d p = some v) →
      dictLookup (ps.foldl (fun acc q => dictSet acc q v) d) p = some v := by
  intro ps
  induction ps with
  | nil =>
    intro d p h
    simpa using h.resolve_left (by simp)
  | cons q rest ih =>
    intro d p h
    simp only [List.foldl_cons]
    apply ih
    by_cases hpq : (q == p) = true
    · have : q = p := by simpa using hpq
      subst this
      exact Or.inr (dictLookup_dictSet_self d q v)
    · rcases h with h | h
      · rcases List.mem_cons.mp h with h | h
        · subst h
          simp at hpq
        · exact Or.inl h
      · exact Or.inr (by rw [dictLookup_dictSet_ne d q p v (by simpa using hpq)]; exact h)

/-! ### Helper lemmas about the generation loop -/

theorem genPosts_eq_map (api : Nat → ChatPayload → ApiOutcome)
    (payload : ChatPayload) :
    ∀ (n idx : Nat),
      genPosts api payload n idx =
        (List.range' idx n).map (fun i => postResult (api i payload)) := by
  intro n
  induction n with
  | zero => intro idx; simp [genPosts]
  | succ m ih => intro idx; simp [genPosts, List.range', ih (idx + 1)]

theorem genLoop_eq (api : Nat → ChatPayload → ApiOutcome)
    (sys t : String) (counts : List (String × Nat)) :
    ∀ (ps : List String), ps.Nodup →
      ∀ (idx : Nat) (content : List (String × List String)),
        (∀ q ∈ ps, dictLookup content q = none) →
        genLoop api sys t counts ps idx content =
          (content ++ expectedContent api sys t counts ps idx,
            idx + sumCounts counts ps) := by
  intro ps
  induction ps with
  | nil =>
    intro _ idx content _
    simp [genLoop, expectedContent, sumCounts]
  | cons p rest ih =>
    intro hnd idx content hnone
    have hydp : dictLookup content p = none := hnone p (by simp)
    have hnd2 : rest.Nodup := (List.nodup_cons.mp hnd).2
    have hmem : p ∉ rest := (List.nodup_cons.mp hnd).1
    simp only [genLoop]
    rw [dictSet_eq_append content p _ hydp]
    rw [ih hnd2 (idx + dictGetD counts p 1) _ ?_]
    · rw [genPosts_eq_map]
      simp [expectedContent, sumCounts, List.append_assoc, Nat.add_assoc]
    · intro q hq
      have hqp : (p == q) = false := by
        have : p ≠ q := fun h => hmem (h ▸ hq)
        simpa using this
      rw [dictLookup_append_of_none _ _ _ (hnone q (by simp [hq]))]
      exact dictLookup_single_ne p q _ hqp

theorem expectedContent_map_fst (api : Nat → ChatPayload → ApiOutcome)
    (sys t : String) (counts : List (String × Nat)) :
    ∀ (ps : List String) (idx : Nat),
      (expectedContent api sys t counts ps idx).map Prod.fst = ps := by
  intro ps
  induction ps with
  | nil => intro idx; simp [expectedContent]
  | cons p rest ih => intro idx; simp [expectedContent, ih]

theorem dictLookup_expectedContent (api : Nat → ChatPayload → ApiOutcome)
    (sys t : String) (counts : List (String × Nat)) :
    ∀ (ps : List String) (p : String), p ∈ ps → ∀ (idx : Nat),
      dictLookup (expectedContent api sys t counts ps idx) p =
        some ((List.range' (idx + startIndex counts ps p) (dictGetD counts p 1)).map
          (fun i => postResult (api i (payloadFor sys t p)))) := by
  intro ps
  induction ps with
  | nil => intro p hp; simp at hp
  | cons q rest ih =>
    intro p hp idx
    by_cases h : (q == p) = true
    · have : q = p := by simpa using h
      subst this
      simp [expectedContent, dictLookup, startIndex]
    · have hne : q ≠ p := by simpa using h
      have hpr : p ∈ rest := by
        rcases List.mem_cons.mp hp with h2 | h2
        · exact absurd h2.symm hne
        · exact h2
      simp only [expectedContent, dictLookup, h, Bool.false_eq_true, if_false]
      rw [ih p hpr (idx + dictGetD counts q 1)]
      simp [startIndex, h, Nat.add_assoc]

theorem startIndex_block_disjoint (counts : List (String × Nat)) :
    ∀ (ps : List String), ps.Nodup → ∀ (p q : String), p ∈ ps → q ∈ ps → p ≠ q →
      ∀ (j k : Nat), j < dictGetD counts p 1 → k < dictGetD counts q 1 →
        startIndex counts ps p + j ≠ startIndex counts ps q + k := by
  intro ps
  induction ps with
  | nil => intro _ p q hp; simp at hp
  | cons h rest ih =>
    intro hnd p q hp hq hne j k hj hk
    have hnd2 : rest.Nodup := (List.nodup_cons.mp hnd).2
    have hmem : h ∉ rest := (List.nodup_cons.mp hnd).1
    by_cases hph : (h == p) = true
    · have hhp : h = p := by simpa using hph
      have hqh : (h == q) = false := by
        have : h ≠ q := fun e => hne (hhp ▸ e).symm.symm
        · simpa using fun e => hne (by rw [← hhp, e])
      have hqr : q ∈ rest := by
        rcases List.mem_cons.mp hq with h2 | h2
        · exact absurd h2.symm (by simpa using hqh)
        · exact h2
      simp only [startIndex, hph, hqh, Bool.false_eq_true, if_false, if_true]
      subst hhp
      omega
    · have hphne : h ≠ p := by simpa using hph
      have hpr : p ∈ rest := by
        rcases List.mem_cons.mp hp with h2 | h2
        · exact absurd h2.symm hphne
        · exact h2
      by_cases hqh : (h == q) = true
      · have hhq : h = q := by simpa using hqh
        simp only [startIndex, hph, hqh, Bool.false_eq_true, if_false, if_true]
        subst hhq
        omega
      · have hqhne : h ≠ q := by simpa using hqh
        have hqr : q ∈ rest := by
          rcases List.mem_cons.mp hq with h2 | h2
          · exact absurd h2.symm hqhne
          · exact h2
        simp only [startIndex, hph, hqh, Bool.false_eq_true, if_false]
        have := ih hnd2 p q hpr hqr hne j k hj hk
        omega

/-- A call outcome flagged as failing yields exactly its failure
placeholder as `postResult`. -/
theorem postResult_eq_failurePlaceholder (o : ApiOutcome)
    (h : isFailureOutcome o = true) :
    some (postResult o) = failurePlaceholder o := by
  cases o with
  | response status text =>
    simp only [isFailureOutcome, Bool.not_eq_eq_eq_not, Bool.not_true] at h
    simp [postResult, failurePlaceholder, h]
  | exc m => simp [postResult, failurePlaceholder]

/-- With valid platforms, a supported language and a usable credential,
`generate_platform_content` runs the per-platform loop and produces
exactly the expected content. -/
theorem generate_valid (env : GenEnv) (t lang : String)
    (platforms : List String) (counts : List (String × Nat)) (key : String)
    (hnd : platforms.Nodup)
    (hp : invalidPlatformsOf platforms = [])
    (hl : langSupported lang = true)
    (hk : pyOr env.openrouter_key env.openai_key = some key)
    (hke : (key == "") = false)
    (hlen : ¬((pyStrip key).length < 10)) :
    generate_platform_content env t (some platforms) lang (some counts) =
      { result := Except.ok
          (expectedContent env.api (sysPromptFor lang) t counts platforms 0),
        apiCalls := sumCounts counts platforms,
        credentialRead := true } := by
  unfold generate_platform_content
  rw [hk]
  simp only [Option.getD_some, hp, List.isEmpty_nil, Bool.not_true,
    Bool.false_eq_true, if_false, hl, hke, if_neg hlen]
  rw [genLoop_eq env.api (sysPromptFor lang) t counts platforms hnd 0 []
    (fun q _ => rfl)]
  simp

/-- C2: for platforms drawn from the supported set, a supported
language, a usable credential and arbitrary post counts, `generate`
returns for each requested platform exactly `post_counts.get(p, 1)`
entries (so default 1 when unspecified, and an empty list — with the
platform still present — when the count is 0), the j-th entry answering
the j-th sequential chat-completion call for that platform, calls being
issued platform by platform in list order. -/
theorem generate_post_counts_in_call_order (env : GenEnv) (t lang : String)
    (platforms : List String) (counts : List (String × Nat)) (key : String)
    (hnd : platforms.Nodup)
    (hp : invalidPlatformsOf platforms = [])
    (hl : langSupported lang = true)
    (hk : pyOr env.openrouter_key env.openai_key = some key)
    (hke : (key == "") = false)
    (hlen : ¬((pyStrip key).length < 10)) :
    ∃ content,
      (generate_platform_content env t (some platforms) lang (some counts)).result =
        Except.ok content ∧
      content.map Prod.fst = platforms ∧
      (∀ p ∈ platforms,
        dictLookup content p =
          some ((List.range' (startIndex counts platforms p)
              (dictGetD counts p 1)).map
            (fun i => postResult (env.api i (payloadFor (sysPromptFor lang) t p))))) ∧
      (∀ p ∈ platforms, ∃ l, dictLookup content p = some l ∧
        l.length = dictGetD counts p 1) ∧
      (generate_platform_content env t (some platforms) lang (some counts)).apiCalls =
        sumCounts counts platforms := by
  rw [generate_valid env t lang platforms counts key hnd hp hl hk hke hlen]
  refine ⟨_, rfl, expectedContent_map_fst _ _ _ _ _ _, fun p hmem => ?_,
    fun p hmem => ?_, rfl⟩
  · have := dictLookup_expectedContent env.api (sysPromptFor lang) t counts
      platforms p hmem 0
    simpa using this
  · have := dictLookup_expectedContent env.api (sysPromptFor lang) t counts
      platforms p hmem 0
    exact ⟨_, this, by simp⟩

/-- Witness for C2 at `post_counts = {instagram: 2, x: 0}`: instagram
gets entries for calls 0 and 1, x is present with the empty list, and
two calls are issued in total. -/
theorem generate_post_counts_in_call_order_witness :
    ∃ content,
      (generate_platform_content okEnv "talk" (some ["instagram", "x"]) "english"
          (some [("instagram", 2), ("x", 0)])).result = Except.ok content ∧
      content.map Prod.fst = ["instagram", "x"] ∧
      (∀ p ∈ ["instagram", "x"],
        dictLookup content p =
          some ((List.range' (startIndex [("instagram", 2), ("x", 0)]
                ["instagram", "x"] p)
              (dictGetD [("instagram", 2), ("x", 0)] p 1)).map
            (fun i => postResult (okEnv.api i
              (payloadFor (sysPromptFor "english") "talk" p))))) ∧
      (∀ p ∈ ["instagram", "x"], ∃ l, dictLookup content p = some l ∧
        l.length = dictGetD [("instagram", 2), ("x", 0)] p 1) ∧
      (generate_platform_content okEnv "talk" (some ["instagram", "x"]) "english"
          (some [("instagram", 2), ("x", 0)])).apiCalls =
        sumCounts [("instagram", 2), ("x", 0)] ["instagram", "x"] := by
  exact generate_post_counts_in_call_order okEnv "talk" "english"
    ["instagram", "x"] [("instagram", 2), ("x", 0)] "0123456789abc"
    (by decide) (by decide) (by decide) (by decide) (by decide) (by decide)

/-- C1 as stated is false: with no credential configured and
`post_counts = {instagram: 2}`, the code returns ONE placeholder entry
for instagram, not `post_counts[instagram] = 2` entries. -/
theorem generate_no_credential_count_counterexample :
    (generate_platform_content noCredEnv "talk" (some ["instagram"]) "english"
        (some [("instagram", 2)])).result =
      Except.ok [("instagram", ["Content generation unavailable"])] ∧
    ¬(["Content generation unavailable"].length = 2) := by
  constructor
  · rfl
  · decide

/-- C1 amended: if no generation credential is configured, `generate`
returns, for every requested platform, a SINGLE placeholder entry
(regardless of the requested post count), issues no network call and
raises no exception. -/
theorem generate_no_credential_single_placeholder (env : GenEnv)
    (t lang : String) (platforms : List String)
    (counts : Option (List (String × Nat)))
    (hp : invalidPlatformsOf platforms = [])
    (hl : langSupported lang = true)
    (hk : pyTruthy (pyOr env.openrouter_key env.openai_key) = false) :
    ∃ content,
      (generate_platform_content env t (some platforms) lang counts).result =
        Except.ok content ∧
      (∀ p ∈ platforms,
        dictLookup content p = some ["Content generation unavailable"]) ∧
      (generate_platform_content env t (some platforms) lang counts).apiCalls = 0 := by
  have hgen : generate_platform_content env t (some platforms) lang counts =
      { result := Except.ok (platforms.foldl
          (fun d p => dictSet d p ["Content generation unavailable"]) []),
        apiCalls := 0, credentialRead := true } := by
    unfold generate_platform_content
    cases hcase : pyOr env.openrouter_key env.openai_key with
    | none =>
      simp [hp, hl]
    | some key =>
      rw [hcase] at hk
      have hke : (key == "") = true := by
        simpa [pyTruthy] using hk
      simp [hp, hl, hke]
  refine ⟨_, by rw [hgen], fun p hmem => ?_, by rw [hgen]⟩
  exact dictLookup_foldl_const _ platforms [] p (Or.inl hmem)

/-- Witness for the amended C1: no credential, instagram requested with
post count 2, one placeholder entry comes back and no call is issued. -/
theorem generate_no_credential_single_placeholder_witness :
    ∃ content,
      (generate_platform_content noCredEnv "talk" (some ["instagram"]) "english"
          (some [("instagram", 2)])).result = Except.ok content ∧
      (∀ p ∈ ["instagram"],
        dictLookup content p = some ["Content generation unavailable"]) ∧
      (generate_platform_content noCredEnv "talk" (some ["instagram"]) "english"
          (some [("instagram", 2)])).apiCalls = 0 := by
  exact generate_no_credential_single_placeholder noCredEnv "talk" "english"
    ["instagram"] (some [("instagram", 2)]) (by decide) (by decide) (by decide)

/-- C9: a configured credential whose stripped length is below 10 makes
`generate` return the single invalid-key placeholder for every requested
platform, with no network call. -/
theorem generate_short_key_placeholder (env : GenEnv) (t lang : String)
    (platforms : List String) (counts : Option (List (String × Nat)))
    (key : String)
    (hp : invalidPlatformsOf platforms = [])
    (hl : langSupported lang = true)
    (hk : pyOr env.openrouter_key env.openai_key = some key)
    (hke : (key == "") = false)
    (hlen : (pyStrip key).length < 10) :
    ∃ content,
      (generate_platform_content env t (some platforms) lang counts).result =
        Except.ok content ∧
      (∀ p ∈ platforms,
        dictLookup content p =
          some ["Content generation unavailable - Invalid API key"]) ∧
      (generate_platform_content env t (some platforms) lang counts).apiCalls = 0 := by
  have hgen : generate_platform_content env t (some platforms) lang counts =
      { result := Except.ok (platforms.foldl
          (fun d p => dictSet d p
            ["Content generation unavailable - Invalid API key"]) []),
        apiCalls := 0, credentialRead := true } := by
    unfold generate_platform_content
    rw [hk]
    simp [hp, hl, hke, hlen]
  refine ⟨_, by rw [hgen], fun p hmem => ?_, by rw [hgen]⟩
  exact dictLookup_foldl_const _ platforms [] p (Or.inl hmem)

/-- Witness for C9: blank primary credential, fallback credential
`" short "` (stripped length 5), one invalid-key placeholder per
platform and zero calls. -/
theorem generate_short_key_placeholder_witness :
    ∃ content,
      (generate_platform_content shortKeyEnv "talk" (some ["instagram", "x"])
          "english" none).result = Except.ok content ∧
      (∀ p ∈ ["instagram", "x"],
        dictLookup content p =
          some ["Content generation unavailable - Invalid API key"]) ∧
      (generate_platform_content shortKeyEnv "talk" (some ["instagram", "x"])
          "english" none).apiCalls = 0 := by
  exact generate_short_key_placeholder shortKeyEnv "talk" "english"
    ["instagram", "x"] none " short " (by decide) (by decide) (by decide)
    (by decide) (by decide)

/-- C6: an unsupported platform in the list, or an unsupported language,
makes `generate` raise a `ValueError` with no network call issued and
without the credential ever being read. -/
theorem generate_validation_before_network (env : GenEnv) (t lang : String)
    (platforms : List String) (counts : Option (List (String × Nat))) :
    (invalidPlatformsOf platforms ≠ [] →
      (∃ e, (generate_platform_content env t (some platforms) lang counts).result =
        Except.error e) ∧
      (generate_platform_content env t (some platforms) lang counts).apiCalls = 0 ∧
      (generate_platform_content env t (some platforms) lang counts).credentialRead =
        false) ∧
    (langSupported lang = false →
      (∃ e, (generate_platform_content env t (some platforms) lang counts).result =
        Except.error e) ∧
      (generate_platform_content env t (some platforms) lang counts).apiCalls = 0 ∧
      (generate_platform_content env t (some platforms) lang counts).credentialRead =
        false) := by
  constructor
  · intro hne
    have hfalse : (invalidPlatformsOf platforms).isEmpty = false := by
      cases hcase : invalidPlatformsOf platforms with
      | nil => exact absurd hcase hne
      | cons a l => rfl
    unfold generate_platform_content
    simp [hfalse]
  · intro hlang
    cases hcase : (invalidPlatformsOf platforms).isEmpty with
    | false =>
      unfold generate_platform_content
      simp [hcase]
    | true =>
      unfold generate_platform_content
      simp [hcase, hlang]

/-- Witness for C6: an unknown platform, and `language="klingon"`, each
fail validation with zero calls and the credential untouched. -/
theorem generate_validation_before_network_witness :
    ((∃ e, (generate_platform_content okEnv "talk" (some ["tiktok"]) "english"
        none).result = Except.error e) ∧
      (generate_platform_content okEnv "talk" (some ["tiktok"]) "english"
        none).apiCalls = 0 ∧
      (generate_platform_content okEnv "talk" (some ["tiktok"]) "english"
        none).credentialRead = false) ∧
    ((∃ e, (generate_platform_content okEnv "talk" (some ["x"]) "klingon"
        none).result = Except.error e) ∧
      (generate_platform_content okEnv "talk" (some ["x"]) "klingon"
        none).apiCalls = 0 ∧
      (generate_platform_content okEnv "talk" (some ["x"]) "klingon"
        none).credentialRead = false) := by
  constructor
  · exact (generate_validation_before_network okEnv "talk" "english" ["tiktok"]
      none).1 (by decide)
  · exact (generate_validation_before_network okEnv "talk" "klingon" ["x"]
      none).2 (by decide)

/-- C10: `generate` treats the language case-insensitively — two spellings
of a supported language with the same lowercase form produce identical
outcomes (same validation, same system prompt, same output). -/
theorem generate_language_case_insensitive (env : GenEnv) (t : String)
    (platforms : Option (List String)) (counts : Option (List (String × Nat)))
    (lang1 lang2 : String)
    (h : pyLower lang1 = pyLower lang2) (hl : langSupported lang1 = true) :
    generate_platform_content env t platforms lang1 counts =
      generate_platform_content env t platforms lang2 counts := by
  have hls : langSupported lang1 = langSupported lang2 := by
    unfold langSupported
    rw [h]
  have hsys : sysPromptFor lang1 = sysPromptFor lang2 := by
    unfold sysPromptFor
    rw [h]
  have hl2 : langSupported lang2 = true := by rw [← hls]; exact hl
  unfold generate_platform_content
  rw [hls, hsys, hl2]
  simp

/-- Witness for C10: `"English"` and `"eNgLiSh"` lower to the same name,
pass validation, and give identical outcomes. -/
theorem generate_language_case_insensitive_witness :
    generate_platform_content okEnv "talk" (some ["x"]) "English"
        (some [("x", 2)]) =
      generate_platform_content okEnv "talk" (some ["x"]) "eNgLiSh"
        (some [("x", 2)]) := by
  exact generate_language_case_insensitive okEnv "talk" (some ["x"])
    (some [("x", 2)]) "English" "eNgLiSh" (by decide) (by decide)

/-- C5: when the call for post `j` of platform `p` fails (non-200
response or exception), the output records exactly the corresponding
failure placeholder at that entry, and every other entry of every
platform is what it would have been had that call behaved otherwise
(failure is per-post, not fatal to the batch). -/
theorem generate_per_post_failure_isolated (env env2 : GenEnv) (t lang : String)
    (platforms : List String) (counts : List (String × Nat)) (key : String)
    (p : String) (j : Nat)
    (hnd : platforms.Nodup)
    (hp : invalidPlatformsOf platforms = [])
    (hl : langSupported lang = true)
    (hk : pyOr env.openrouter_key env.openai_key = some key)
    (hk2 : pyOr env2.openrouter_key env2.openai_key = some key)
    (hke : (key == "") = false)
    (hlen : ¬((pyStrip key).length < 10))
    (hmem : p ∈ platforms)
    (hj : j < dictGetD counts p 1)
    (hfail : isFailureOutcome (env.api (startIndex counts platforms p + j)
      (payloadFor (sysPromptFor lang) t p)) = true)
    (hapi : ∀ (m : Nat) (pl : ChatPayload),
      m ≠ startIndex counts platforms p + j → env2.api m pl = env.api m pl) :
    ∃ content content2,
      (generate_platform_content env t (some platforms) lang (some counts)).result =
        Except.ok content ∧
      (generate_platform_content env2 t (some platforms) lang (some counts)).result =
        Except.ok content2 ∧
      entryAt content p j =
        failurePlaceholder (env.api (startIndex counts platforms p + j)
          (payloadFor (sysPromptFor lang) t p)) ∧
      (∀ q ∈ platforms, ∀ (k : Nat), ¬(q = p ∧ k = j) →
        entryAt content q k = entryAt content2 q k) := by
  rw [generate_valid env t lang platforms counts key hnd hp hl hk hke hlen,
    generate_valid env2 t lang platforms counts key hnd hp hl hk2 hke hlen]
  refine ⟨_, _, rfl, rfl, ?_, ?_⟩
  · unfold entryAt
    rw [dictLookup_expectedContent env.api (sysPromptFor lang) t counts
      platforms p hmem 0]
    dsimp only
    rw [List.getElem?_map, List.getElem?_range' _ _ hj]
    simp only [Nat.zero_add, Nat.one_mul, Option.map_some']
    exact postResult_eq_failurePlaceholder _ hfail
  · intro q hq k hne
    unfold entryAt
    rw [dictLookup_expectedContent env.api (sysPromptFor lang) t counts
      platforms q hq 0]
    rw [dictLookup_expectedContent env2.api (sysPromptFor lang) t counts
      platforms q hq 0]
    dsimp only
    by_cases hk3 : k < dictGetD counts q 1
    · rw [List.getElem?_map, List.getElem?_map, List.getElem?_range' _ _ hk3]
      simp only [Nat.zero_add, Nat.one_mul, Option.map_some']
      have hidx : startIndex counts platforms q + k ≠
          startIndex counts platforms p + j := by
        by_cases hqp : q = p
        · subst hqp
          have hkj : k ≠ j := fun hh => hne ⟨rfl, hh⟩
          omega
        · exact startIndex_block_disjoint counts platforms hnd q p hq hmem hqp
            k j hk3 hj
      rw [hapi _ _ hidx]
    · have hlen2 : dictGetD counts q 1 ≤ k := Nat.le_of_not_lt hk3
      rw [List.getElem?_eq_none, List.getElem?_eq_none]
      · simpa using hlen2
      · simpa using hlen2

/-- Witness for C5: with `{instagram: 2, x: 1}`, call index 1 (the
second instagram post) answers 500; the placeholder lands exactly
there, and every other entry agrees with the run in which call 1
succeeded. -/
theorem generate_per_post_failure_isolated_witness :
    ∃ content content2,
      (generate_platform_content failAt1Env "talk" (some ["instagram", "x"])
          "english" (some [("instagram", 2), ("x", 1)])).result =
        Except.ok content ∧
      (generate_platform_content okAt1Env "talk" (some ["instagram", "x"])
          "english" (some [("instagram", 2), ("x", 1)])).result =
        Except.ok content2 ∧
      entryAt content "instagram" 1 =
        failurePlaceholder (failAt1Env.api
          (startIndex [("instagram", 2), ("x", 1)] ["instagram", "x"]
            "instagram" + 1)
          (payloadFor (sysPromptFor "english") "talk" "instagram")) ∧
      (∀ q ∈ ["instagram", "x"], ∀ (k : Nat), ¬(q = "instagram" ∧ k = 1) →
        entryAt content q k = entryAt content2 q k) := by
  refine generate_per_post_failure_isolated failAt1Env okAt1Env "talk" "english"
    ["instagram", "x"] [("instagram", 2), ("x", 1)] "0123456789abc"
    "instagram" 1 (by decide) (by decide) (by decide) (by decide) (by decide)
    (by decide) (by decide) (by decide) (by decide) (by decide) ?_
  intro m pl hm
  have hs : startIndex [("instagram", 2), ("x", 1)] ["instagram", "x"]
      "instagram" + 1 = 1 := by decide
  rw [hs] at hm
  show okAt1Env.api m pl = failAt1Env.api m pl
  match m with
  | 0 => rfl
  | 1 => exact absurd rfl hm
  | n + 2 => rfl

/-- C3: whenever acquisition produced an audio path — so on success, on
transcription failure and on generation failure — cleanup runs exactly
once; cleanup of a non-existing file does nothing; and a failing
`os.remove` only sets the warning, never changing the run's outcome. -/
theorem pipeline_cleanup_exactly_once :
    (∀ (env : RunEnv) (pathv : String), env.acquire = Except.ok (some pathv) →
      (runPipeline env).cleanupCalls = 1) ∧
    (∀ (rf : Bool),
      cleanup_audio_file false rf = { removed := false, warned := false }) ∧
    (∀ (env : RunEnv) (pathv : String), env.acquire = Except.ok (some pathv) →
      env.fileExists = true → env.removeFails = true →
      (runPipeline env).cleanup = some { removed := false, warned := true } ∧
      (runPipeline env).outcome =
        (runPipeline { env with removeFails := false }).outcome) := by
  refine ⟨?_, ?_, ?_⟩
  · intro env pathv hacq
    obtain ⟨acq, tr, gen, fe, rf⟩ := env
    dsimp only at hacq
    subst hacq
    cases tr with
    | error e => rfl
    | ok tv =>
      cases gen with
      | error e => rfl
      | ok u => rfl
  · intro rf
    rfl
  · intro env pathv hacq hfe hrf
    obtain ⟨acq, tr, gen, fe, rf⟩ := env
    dsimp only at hacq hfe hrf
    subst hacq
    subst hfe
    subst hrf
    cases tr with
    | error e => exact ⟨rfl, rfl⟩
    | ok tv =>
      cases gen with
      | error e => exact ⟨rfl, rfl⟩
      | ok u => exact ⟨rfl, rfl⟩

/-- Witness for C3: cleanup runs once on a fully successful run; a
cleanup with no file is a no-op; a failing removal on a
transcription-failure run only warns and leaves the outcome as is. -/
theorem pipeline_cleanup_exactly_once_witness :
    (runPipeline runEnvSuccess).cleanupCalls = 1 ∧
    cleanup_audio_file false true = { removed := false, warned := false } ∧
    (runPipeline runEnvTransFail).cleanup = some { removed := false, warned := true } ∧
    (runPipeline runEnvTransFail).outcome =
      (runPipeline { runEnvTransFail with removeFails := false }).outcome := by
  refine ⟨?_, ?_, ?_, ?_⟩
  · exact pipeline_cleanup_exactly_once.1 runEnvSuccess "downloads/clip.mp3" rfl
  · exact pipeline_cleanup_exactly_once.2.1 true
  · exact (pipeline_cleanup_exactly_once.2.2 runEnvTransFail "downloads/clip.mp3"
      rfl rfl rfl).1
  · exact (pipeline_cleanup_exactly_once.2.2 runEnvTransFail "downloads/clip.mp3"
      rfl rfl rfl).2

/-- C4 as stated is false for the app pipeline: `"video.mp4"` is not in
a supported audio format, yet the app's local acquisition saves it and
passes it on without ever invoking the conversion tool. -/
theorem app_local_no_transcode_counterexample :
    SUPPORTED_AUDIO_EXTS.contains (pyLower (extOf "video.mp4")) = false ∧
    (app_acquire_local false "video.mp4").convertCalled = false ∧
    (app_acquire_local false "video.mp4").result = some "downloads/video.mp4" := by
  refine ⟨by decide, rfl, rfl⟩

/-- C4 amended: the app's local-file acquisition saves every uploaded
file under the download directory and passes it through unconverted
regardless of its format; the audio-passthrough / transcode-otherwise
dispatch exists only in the audio_download CLI entry point, whose
`convert_to_mp3` raises the FFmpeg error on transcoding failure. -/
theorem app_local_acquisition_passthrough_cli_convert :
    (∀ (name : String), (app_acquire_local false name).convertCalled = false ∧
      (app_acquire_local false name).result = some (pathJoin DOWNLOAD_DIR name)) ∧
    (∀ (path : String),
      (SUPPORTED_AUDIO_EXTS.contains (pyLower (extOf path)) = true →
        cli_local_file_action path = LocalAction.passthrough path) ∧
      (SUPPORTED_AUDIO_EXTS.contains (pyLower (extOf path)) = false →
        cli_local_file_action path = LocalAction.convert path)) ∧
    (∀ (e input outdir : String),
      convert_to_mp3 (some e) input outdir =
        Except.error ("FFmpeg conversion error: " ++ e)) := by
  refine ⟨fun name => ⟨rfl, rfl⟩, fun path => ⟨?_, ?_⟩,
    fun e input outdir => rfl⟩
  · intro h
    have h2 : pyLower (extOf path) ∈ SUPPORTED_AUDIO_EXTS := by simpa using h
    simp [cli_local_file_action, h2]
  · intro h
    have h2 : pyLower (extOf path) ∉ SUPPORTED_AUDIO_EXTS := by simpa using h
    simp [cli_local_file_action, h2]

/-- Witness for the amended C4: a video upload is passed through
unconverted by the app; the CLI passes `song.mp3` through and converts
`video.mp4`; a failing conversion reports the FFmpeg error. -/
theorem app_local_acquisition_passthrough_cli_convert_witness :
    ((app_acquire_local false "video.mp4").convertCalled = false ∧
      (app_acquire_local false "video.mp4").result =
        some (pathJoin DOWNLOAD_DIR "video.mp4")) ∧
    cli_local_file_action "song.mp3" = LocalAction.passthrough "song.mp3" ∧
    cli_local_file_action "video.mp4" = LocalAction.convert "video.mp4" ∧
    convert_to_mp3 (some "boom") "clip.mov" "downloads" =
      Except.error ("FFmpeg conversion error: " ++ "boom") := by
  refine ⟨app_local_acquisition_passthrough_cli_convert.1 "video.mp4",
    (app_local_acquisition_passthrough_cli_convert.2.1 "song.mp3").1 (by decide),
    (app_local_acquisition_passthrough_cli_convert.2.1 "video.mp4").2 (by decide),
    app_local_acquisition_passthrough_cli_convert.2.2 "boom" "clip.mov" "downloads"⟩

/-- C7: a URL failing the validation predicate is rejected immediately
with the invalid-URL error and the download library is never invoked;
the library is only ever reached by URLs passing validation. -/
theorem download_validates_url_before_library (env : DlEnv) (url : String) :
    (validate_youtube_url url = false →
      (download_youtube_audio env url).result =
        Except.error "Invalid YouTube URL. Please provide a valid YouTube video link." ∧
      (download_youtube_audio env url).libraryInvoked = false) ∧
    ((download_youtube_audio env url).libraryInvoked = true →
      validate_youtube_url url = true) := by
  constructor
  · intro h
    unfold download_youtube_audio
    simp [h]
  · intro h
    by_cases hv : validate_youtube_url url = true
    · exact hv
    · exfalso
      have hf : validate_youtube_url url = false := by simpa using hv
      unfold download_youtube_audio at h
      simp [hf] at h

/-- Witness for C7: a non-YouTube URL is rejected without touching the
library; a YouTube URL reaches it. -/
theorem download_validates_url_before_library_witness :
    ((download_youtube_audio dlEnvOk "https://example.com/video").result =
      Except.error "Invalid YouTube URL. Please provide a valid YouTube video link." ∧
      (download_youtube_audio dlEnvOk "https://example.com/video").libraryInvoked =
        false) ∧
    validate_youtube_url "https://www.youtube.com/watch" = true := by
  constructor
  · exact (download_validates_url_before_library dlEnvOk
      "https://example.com/video").1 (by decide)
  · exact (download_validates_url_before_library dlEnvOk
      "https://www.youtube.com/watch").2 (by decide)

/-- C8: a non-existing audio path raises the file-not-found error before
the model is loaded; with an existing path, any failure of model loading
or inference is wrapped into the transcription runtime error. -/
theorem transcribe_missing_file_and_wrap_errors (env : TransEnv)
    (audio_path : String) :
    (env.fileExists audio_path = false →
      (transcribe_audio env audio_path).result =
        Except.error (TransError.fileNotFound
          ("Audio file not found: " ++ audio_path)) ∧
      (transcribe_audio env audio_path).modelLoaded = false) ∧
    (env.fileExists audio_path = true →
      ∀ (e : String), env.whisper = Except.error e →
        (transcribe_audio env audio_path).result =
          Except.error (TransError.runtimeError
            ("Failed to transcribe audio: " ++ e)) ∧
        (transcribe_audio env audio_path).modelLoaded = true) := by
  constructor
  · intro h
    unfold transcribe_audio
    simp [h]
  · intro h e he
    unfold transcribe_audio
    simp [h, he]

/-- Witness for C8: a missing path fails before loading the model, and
corrupt audio on an existing path is wrapped into the runtime error. -/
theorem transcribe_missing_file_and_wrap_errors_witness :
    ((transcribe_audio transEnvMissing "downloads/clip.mp3").result =
      Except.error (TransError.fileNotFound
        ("Audio file not found: " ++ "downloads/clip.mp3")) ∧
      (transcribe_audio transEnvMissing "downloads/clip.mp3").modelLoaded =
        false) ∧
    (transcribe_audio transEnvCorrupt "downloads/clip.mp3").result =
      Except.error (TransError.runtimeError
        ("Failed to transcribe audio: " ++ "corrupt audio")) := by
  constructor
  · exact (transcribe_missing_file_and_wrap_errors transEnvMissing
      "downloads/clip.mp3").1 rfl
  · exact ((transcribe_missing_file_and_wrap_errors transEnvCorrupt
      "downloads/clip.mp3").2 rfl "corrupt audio" rfl).1

end ContentRepurposer
